import Mathlib

/-!
Verification of the metrics-normalization and bottleneck-classification engine
of the `profiler` repository (src/profiler.py and src/analyzer.py).

The Python code is shallowly embedded: every numeric value is an exact
rational (`ℚ`), a Python value that may be `None` is an `Option ℚ`, Python
dictionaries are association lists, and Python truthiness (`x or d`,
`if x:`) is modelled explicitly.  `round(x, n)` is modelled as decimal
round-half-even (Python banker's rounding); the handful of values the
theorems touch are exact multiples of `10^(-n)`, where every rounding mode
agrees.
-/

namespace Profiler

/-- Python `x or d` for an optional numeric `x`: returns `d` when `x` is
`None` or equal to `0` (both are falsy), otherwise the value of `x`. -/
def pyOr (o : Option ℚ) (d : ℚ) : ℚ :=
  match o with
  | none => d
  | some x => if x = 0 then d else x

/-- Python truthiness of an optional numeric: `None` and `0` are falsy. -/
def pyTruthy (o : Option ℚ) : Bool :=
  match o with
  | none => false
  | some x => decide (x ≠ 0)

/-- Round-half-even to an integer (the tie-breaking used by Python `round`). -/
def roundHalfEven (q : ℚ) : ℤ :=
  if q - ⌊q⌋ < 1/2 then ⌊q⌋
  else if 1/2 < q - ⌊q⌋ then ⌊q⌋ + 1
  else if ⌊q⌋ % 2 = 0 then ⌊q⌋ else ⌊q⌋ + 1

/-- Python `round(q, ndigits)` on an exact rational. -/
def pyRound (q : ℚ) (ndigits : ℕ) : ℚ :=
  (roundHalfEven (q * (10 : ℚ) ^ ndigits) : ℚ) / (10 : ℚ) ^ ndigits

theorem roundHalfEven_nonneg {q : ℚ} (h : 0 ≤ q) : 0 ≤ roundHalfEven q := by
  have hf : (0 : ℤ) ≤ ⌊q⌋ := Int.floor_nonneg.mpr h
  unfold roundHalfEven
  split
  · exact hf
  · split
    · omega
    · split <;> omega

theorem roundHalfEven_le {q : ℚ} {n : ℤ} (h : q ≤ (n : ℚ)) :
    roundHalfEven q ≤ n := by
  have hf : ⌊q⌋ ≤ n := by
    have := Int.floor_le_floor h
    simpa using this
  have hfl : (⌊q⌋ : ℚ) ≤ q := Int.floor_le q
  unfold roundHalfEven
  split
  · exact hf
  · rename_i h1
    split
    · rename_i h2
      -- here `1/2 < q - ⌊q⌋`, so `⌊q⌋ < n` strictly
      rcases lt_or_eq_of_le hf with h' | h'
      · omega
      · exfalso
        have : q ≤ (⌊q⌋ : ℚ) := by rw [h']; exact_mod_cast h
        linarith
    · rename_i h2
      -- exact half: `q - ⌊q⌋ = 1/2`, again `⌊q⌋ < n`
      have hhalf : q - (⌊q⌋ : ℚ) = 1/2 := le_antisymm (not_lt.mp h2) (not_lt.mp h1)
      rcases lt_or_eq_of_le hf with h' | h'
      · split <;> omega
      · exfalso
        have : q ≤ (⌊q⌋ : ℚ) := by rw [h']; exact_mod_cast h
        linarith

theorem pyRound_nonneg {q : ℚ} (h : 0 ≤ q) (d : ℕ) : 0 ≤ pyRound q d := by
  unfold pyRound
  have hp : (0 : ℚ) < (10 : ℚ) ^ d := by positivity
  have h1 : 0 ≤ q * (10 : ℚ) ^ d := by positivity
  have h2 : (0 : ℤ) ≤ roundHalfEven (q * (10 : ℚ) ^ d) := roundHalfEven_nonneg h1
  have h3 : (0 : ℚ) ≤ (roundHalfEven (q * (10 : ℚ) ^ d) : ℚ) := by exact_mod_cast h2
  positivity

theorem pyRound_le {q : ℚ} {n : ℤ} (h : q ≤ (n : ℚ)) (d : ℕ) :
    pyRound q d ≤ (n : ℚ) := by
  unfold pyRound
  have hp : (0 : ℚ) < (10 : ℚ) ^ d := by positivity
  have h1 : q * (10 : ℚ) ^ d ≤ ((n * 10 ^ d : ℤ) : ℚ) := by
    push_cast
    exact mul_le_mul_of_nonneg_right h (le_of_lt hp)
  have h2 : roundHalfEven (q * (10 : ℚ) ^ d) ≤ n * 10 ^ d := roundHalfEven_le h1
  have h3 : (roundHalfEven (q * (10 : ℚ) ^ d) : ℚ) ≤ (n : ℚ) * (10 : ℚ) ^ d := by
    exact_mod_cast h2
  rw [div_le_iff₀ hp]
  exact h3

/-!
Data model.  `classify_performance` (src/analyzer.py, lines 6 to 293) reads
the fields below from its six section dictionaries via
`get(d, k) = (d or {}).get(k)`; each structure holds exactly the fields the
classifier consumes, every one optional (absent or `null` becomes `none`).
-/

/-- One row of the parsed syscall table, as consumed by the classifier.
Numeric fields are stored with the defaults the classifier applies at every
access (`r.get("seconds", 0.0)`, `r.get("calls", 0)`, `r.get("pct_time", 0)`);
`syscall` is `none` when the row has no string name. -/
structure SyscallRow where
  syscall : Option String
  calls : ℚ
  seconds : ℚ
  pct_time : ℚ
  deriving Repr, DecidableEq

/-- Timing section: the three fields `classify_performance` reads. -/
structure Timing where
  elapsed_s : Option ℚ
  wait_time_s : Option ℚ
  cpu_utilization_per_core_pct : Option ℚ
  deriving Repr, DecidableEq

/-- Cpu section: the four fields `classify_performance` reads. -/
structure Cpu where
  ipc : Option ℚ
  branch_miss_rate_pct : Option ℚ
  frontend_stall_pct : Option ℚ
  backend_stall_pct : Option ℚ
  deriving Repr, DecidableEq

/-- Cache section: the two fields `classify_performance` reads. -/
structure Cache where
  l1d_miss_rate_pct : Option ℚ
  llc_miss_rate_pct : Option ℚ
  deriving Repr, DecidableEq

/-- Memory section: the two fields `classify_performance` reads. -/
structure MemorySec where
  dtlb_miss_rate_pct : Option ℚ
  ram_total_bandwidth_mbps : Option ℚ
  deriving Repr, DecidableEq

/-- Concurrency section: the two fields `classify_performance` reads. -/
structure Concurrency where
  threads : Option ℚ
  context_switches : Option ℚ
  deriving Repr, DecidableEq

/-- Syscalls section.  `rows` is the value of the "syscalls" key (`none` when
the key is absent); `total_seconds` is `total.get("seconds")` when the
"total" key holds a dictionary with a numeric "seconds" entry, `none` in
every other case (absent key, non-dict value, missing entry) — exactly the
distinctions `classify_performance` lines 35 to 41 can observe. -/
structure Syscalls where
  rows : Option (List SyscallRow)
  total_seconds : Option ℚ
  deriving Repr, DecidableEq

/-- Structured evidence snippet appended to `reasons`; one constructor per
`reasons.append({...})` site in the source, carrying the exact values the
source puts in the dictionary (optional where the source variable is
optional). -/
inductive Reason where
  | shortLived (elapsed_s : ℚ)
  | ioWait (io_wait_frac : ℚ) (syscalls_total_seconds : Option ℚ)
  | memorySignals (llc l1d dtlb backend bw : Option ℚ)
  | branchMiss (branch_miss_rate_pct : Option ℚ)
  | stalls (frontend backend : Option ℚ)
  | computeBound (ipc : Option ℚ)
  | defaultContext (ipc frontend backend branchMissRate : Option ℚ)
  | topSyscallsByTime (top : List (Option String × ℚ × ℚ))
  deriving Repr, DecidableEq

/-- Advisory suggestion; one constructor per `suggestions.append(...)` site
in the source, carrying the numeric values the source interpolates into the
message.  The English rendering of each message is presentation only and is
not modelled. -/
inductive Suggestion where
  | shortLivedApp
  | bufferedWritesNote (write_calls : ℚ)
  | highWriteSyscallCount
  | ioBoundGeneral
  | highContextSwitchRate
  | veryHighLlcMissRate (rate : ℚ)
  | highLlcMissRate (rate : ℚ)
  | highL1dMissRate (rate : ℚ)
  | highTlbMissRate (rate : ℚ)
  | highRamBandwidth (bw : ℚ)
  | lowIpc (ipc : ℚ)
  | highFrontendStalls (pct : ℚ)
  | highBackendStalls (pct : ℚ)
  | highBranchMissRate (rate : ℚ)
  | goodIpcSingleThread (ipc : ℚ)
  | moderateIpcVectorize
  deriving Repr, DecidableEq

/-- The classifier output (src/analyzer.py lines 287 to 293). -/
structure Classification where
  primary_bottleneck : String
  parallel_potential : String
  confidence : ℚ
  reasons : List Reason
  suggestions : List Suggestion
  deriving Repr, DecidableEq

/-! Locals of `classify_performance`, one definition per source variable,
each taking only the sections it reads. -/

/-- Source line 20: `elapsed = get(timing, "elapsed_s") or 0.0`. -/
def elapsedOf (t : Timing) : ℚ := pyOr t.elapsed_s 0

/-- Source line 21: `wait_time = get(timing, "wait_time_s") or 0.0`. -/
def waitTimeOf (t : Timing) : ℚ := pyOr t.wait_time_s 0

/-- Source line 22: `wait_frac = (wait_time / elapsed) if elapsed else 0.0`. -/
def waitFracOf (t : Timing) : ℚ :=
  if elapsedOf t ≠ 0 then waitTimeOf t / elapsedOf t else 0

/-- Source line 51: the fixed set of startup-related syscalls. -/
def startupSyscallSet : List String :=
  ["execve", "mmap", "munmap", "mprotect", "brk", "access", "openat", "close",
   "fstat", "read"]

/-- Source lines 49 and 208: `rows = (syscalls or {}).get("syscalls", [])`. -/
def rowsOf (s : Syscalls) : List SyscallRow := s.rows.getD []

/-- Source line 52: summed seconds of rows whose syscall is startup-related. -/
def startupTimeOf (s : Syscalls) : ℚ :=
  ((rowsOf s).filter fun r =>
    match r.syscall with
    | some n => startupSyscallSet.contains n
    | none => false).foldl (fun a r => a + r.seconds) 0

/-- Source lines 45 to 56: short-lived / startup-dominated detection.
`elapsed` must be truthy and under 0.1 s, the row list non-empty, the total
syscall seconds truthy, and the startup share above 0.7. -/
def shortAppOf (t : Timing) (s : Syscalls) : Bool :=
  decide (elapsedOf t ≠ 0) && decide (elapsedOf t < 1/10) &&
  !(rowsOf s).isEmpty &&
  (match s.total_seconds with
   | some ts => decide (ts ≠ 0) && decide (startupTimeOf s / ts > 7/10)
   | none => false)

/-- Source line 59: `io_cond = (wait_frac >= 0.2) or (elapsed and
syscalls_total_seconds and (syscalls_total_seconds / elapsed) >= 0.3)`. -/
def ioCondOf (t : Timing) (s : Syscalls) : Bool :=
  decide (waitFracOf t ≥ 2/10) ||
  (decide (elapsedOf t ≠ 0) &&
   (match s.total_seconds with
    | some ts => decide (ts ≠ 0) && decide (ts / elapsedOf t ≥ 3/10)
    | none => false))

/-- Source lines 62 to 68: count of cache/TLB miss-rate signals crossing
their thresholds (llc ≥ 5, l1d ≥ 10, dtlb ≥ 1). -/
def memMissSignalsOf (ca : Cache) (m : MemorySec) : ℕ :=
  (match ca.llc_miss_rate_pct with
   | some x => if x ≥ 5 then 1 else 0
   | none => 0) +
  (match ca.l1d_miss_rate_pct with
   | some x => if x ≥ 10 then 1 else 0
   | none => 0) +
  (match m.dtlb_miss_rate_pct with
   | some x => if x ≥ 1 then 1 else 0
   | none => 0)

/-- Source lines 74 to 80: the memory-bound condition.  With backend-stall
data: at least one miss signal and backend stall ≥ 20.  Without: a strong
miss (llc ≥ 30 or two signals) or high RAM bandwidth (≥ 1000) with a
signal. -/
def memCondOf (c : Cpu) (ca : Cache) (m : MemorySec) : Bool :=
  match c.backend_stall_pct with
  | some b => decide (memMissSignalsOf ca m ≥ 1) && decide (b ≥ 20)
  | none =>
    ((match ca.llc_miss_rate_pct with
      | some x => decide (x ≥ 30)
      | none => false) || decide (memMissSignalsOf ca m ≥ 2)) ||
    ((match m.ram_total_bandwidth_mbps with
      | some x => decide (x ≥ 1000)
      | none => false) && decide (memMissSignalsOf ca m ≥ 1))

/-- Source line 82: branch miss rate known and ≥ 5. -/
def branchCondOf (c : Cpu) : Bool :=
  match c.branch_miss_rate_pct with
  | some x => decide (x ≥ 5)
  | none => false

/-- Source line 83: frontend stall known and ≥ 30. -/
def frontendCondOf (c : Cpu) : Bool :=
  match c.frontend_stall_pct with
  | some x => decide (x ≥ 30)
  | none => false

/-- Source line 84: backend stall known and ≥ 30. -/
def backendCondOf (c : Cpu) : Bool :=
  match c.backend_stall_pct with
  | some x => decide (x ≥ 30)
  | none => false

/-- Source lines 87 to 93: compute-bound condition (ipc ≥ 1.5, stalls and
miss rates below their thresholds where known). -/
def cpuComputeCondOf (c : Cpu) (ca : Cache) : Bool :=
  (match c.ipc with
   | some x => decide (x ≥ 3/2)
   | none => false) &&
  (match c.frontend_stall_pct with
   | some x => decide (x < 20)
   | none => true) &&
  (match c.backend_stall_pct with
   | some x => decide (x < 20)
   | none => true) &&
  (match ca.l1d_miss_rate_pct with
   | some x => decide (x < 10)
   | none => true) &&
  (match ca.llc_miss_rate_pct with
   | some x => decide (x < 5)
   | none => true)

/-- Source lines 96 to 138: the verdict cascade.  The four branches below
the memory branch (branch misses, stalls, compute-bound, default) all
assign `"CPU"`, so the verdict collapses to this four-way selection; the
per-branch evidence is kept separately in `baseReasonsOf`. -/
def primaryOf (t : Timing) (c : Cpu) (ca : Cache) (m : MemorySec) (s : Syscalls) :
    String :=
  if shortAppOf t s then "No bottleneck"
  else if ioCondOf t s then "I/O/Wait"
  else if memCondOf c ca m then "Memory"
  else "CPU"

/-- Source lines 96 to 138: the single evidence snippet appended by the
branch of the cascade that fired. -/
def baseReasonsOf (t : Timing) (c : Cpu) (ca : Cache) (m : MemorySec)
    (s : Syscalls) : List Reason :=
  if shortAppOf t s then [.shortLived (elapsedOf t)]
  else if ioCondOf t s then [.ioWait (pyRound (waitFracOf t) 3) s.total_seconds]
  else if memCondOf c ca m then
    [.memorySignals ca.llc_miss_rate_pct ca.l1d_miss_rate_pct
      m.dtlb_miss_rate_pct c.backend_stall_pct m.ram_total_bandwidth_mbps]
  else if branchCondOf c then [.branchMiss c.branch_miss_rate_pct]
  else if frontendCondOf c || backendCondOf c then
    [.stalls c.frontend_stall_pct c.backend_stall_pct]
  else if cpuComputeCondOf c ca then [.computeBound c.ipc]
  else
    [.defaultContext c.ipc c.frontend_stall_pct c.backend_stall_pct
      c.branch_miss_rate_pct]

/-- Stable insertion step for the descending-by-seconds sort (Python
`sorted(..., key=seconds, reverse=True)` is stable). -/
def insertBySecondsDesc (x : SyscallRow) : List SyscallRow → List SyscallRow
  | [] => [x]
  | y :: ys =>
    if x.seconds < y.seconds then y :: insertBySecondsDesc x ys
    else x :: y :: ys

/-- Stable sort of the syscall rows by seconds, descending. -/
def sortBySecondsDesc (l : List SyscallRow) : List SyscallRow :=
  l.foldr insertBySecondsDesc []

/-- Source lines 185 to 194: the top three syscalls by time, as
`(syscall, seconds, pct_time)` triples. -/
def topSyscallEntries (s : Syscalls) : List (Option String × ℚ × ℚ) :=
  ((sortBySecondsDesc (rowsOf s)).take 3).map fun r =>
    (r.syscall, r.seconds, r.pct_time)

/-- Source lines 97 to 197: the full reasons list — the cascade snippet,
plus the top-syscalls snippet when the verdict is I/O/Wait and the row list
is a non-empty list. -/
def reasonsOf (t : Timing) (c : Cpu) (ca : Cache) (m : MemorySec)
    (s : Syscalls) : List Reason :=
  baseReasonsOf t c ca m s ++
  (if primaryOf t c ca m s = "I/O/Wait" ∧ rowsOf s ≠ [] then
    [.topSyscallsByTime (topSyscallEntries s)]
  else [])

/-- Source lines 140 to 152: parallel-potential estimate. -/
def parallelPotentialOf (t : Timing) (c : Cpu) (ca : Cache) (m : MemorySec)
    (co : Concurrency) (s : Syscalls) : String :=
  let threads := pyOr co.threads 1
  let cpu_util := pyOr t.cpu_utilization_per_core_pct 0
  let primary := primaryOf t c ca m s
  if primary = "No bottleneck" then "n/a"
  else if primary = "Memory" ∨ ioCondOf t s = true then "low"
  else if primary = "CPU" ∧ threads ≤ 1 ∧ pyOr c.ipc 0 ≥ 1 then "high"
  else if primary = "CPU" ∧ pyOr c.ipc 0 ≥ 9/10 ∧ cpu_util < 85 then "medium"
  else "low"

/-- Indicator used by the confidence scores. -/
def countB (b : Bool) : ℕ := if b then 1 else 0

/-- Source lines 159 to 164: memory-confidence signal count. -/
def memConfScoreOf (c : Cpu) (ca : Cache) (m : MemorySec) : ℕ :=
  countB (match ca.llc_miss_rate_pct with
          | some x => decide (x ≥ 5)
          | none => false) +
  countB (match ca.l1d_miss_rate_pct with
          | some x => decide (x ≥ 10)
          | none => false) +
  countB (match m.dtlb_miss_rate_pct with
          | some x => decide (x ≥ 1)
          | none => false) +
  countB (match c.backend_stall_pct with
          | some x => decide (x ≥ 20)
          | none => false) +
  countB (match m.ram_total_bandwidth_mbps with
          | some x => decide (x ≥ 1000)
          | none => false)

/-- Source lines 167 to 169: I/O-confidence signal count. -/
def ioConfScoreOf (t : Timing) (s : Syscalls) : ℕ :=
  countB (decide (waitFracOf t ≥ 2/10)) +
  countB (decide (elapsedOf t ≠ 0) &&
          (match s.total_seconds with
           | some ts => decide (ts ≠ 0) && decide (ts / elapsedOf t ≥ 3/10)
           | none => false))

/-- Source lines 172 to 177: CPU-confidence signal count. -/
def cpuConfScoreOf (c : Cpu) (ca : Cache) : ℕ :=
  countB (match c.ipc with
          | some x => decide (x ≥ 3/2)
          | none => false) +
  countB (match c.frontend_stall_pct with
          | some x => decide (x < 20)
          | none => false) +
  countB (match c.backend_stall_pct with
          | some x => decide (x < 20)
          | none => false) +
  countB (match ca.l1d_miss_rate_pct with
          | some x => decide (x < 10)
          | none => false) +
  countB (match ca.llc_miss_rate_pct with
          | some x => decide (x < 5)
          | none => false)

/-- Source lines 155 to 178: the branch-specific raw confidence, before
clamping and rounding. -/
def confidenceRawOf (t : Timing) (c : Cpu) (ca : Cache) (m : MemorySec)
    (s : Syscalls) : ℚ :=
  let primary := primaryOf t c ca m s
  if primary = "No bottleneck" then 9/10
  else if primary = "Memory" then
    35/100 + 13/100 * ((min (memConfScoreOf c ca m) 4 : ℕ) : ℚ)
  else if primary = "I/O/Wait" then 4/10 + 3/10 * ((ioConfScoreOf t s : ℕ) : ℚ)
  else 3/10 + 15/100 * ((cpuConfScoreOf c ca : ℕ) : ℚ)

/-- Source line 209: total calls of the rows whose syscall is "write". -/
def writeCallsOf (s : Syscalls) : ℚ :=
  ((rowsOf s).filter fun r => decide (r.syscall = some "write")).foldl
    (fun a r => a + r.calls) 0

/-- Source lines 207 to 217: the buffered-output cross-check.  On a CPU
verdict with a positive elapsed time, writes present, total syscall time
under 10 percent of elapsed and more than 100 write calls, the caveat is
appended. -/
def bufferedWriteSuggestionsOf (t : Timing) (s : Syscalls) (primary : String) :
    List Suggestion :=
  let write_calls := writeCallsOf s
  let total_syscall_time := pyOr s.total_seconds 0
  if primary = "CPU" ∧ write_calls > 0 ∧ elapsedOf t > 0 ∧
     total_syscall_time / elapsedOf t < 1/10 ∧ write_calls > 100 then
    [.bufferedWritesNote write_calls]
  else []

/-- Source lines 219 to 240: suggestions for the I/O/Wait verdict.  The loop
stops at the first row with syscall "write" and pct_time over 90. -/
def ioSuggestionsOf (t : Timing) (co : Concurrency) (s : Syscalls) :
    List Suggestion :=
  let writeHeavyRow :=
    (rowsOf s).find? fun r =>
      decide (r.syscall = some "write") && decide (r.pct_time > 90)
  (match writeHeavyRow with
   | some r => if r.calls > 10000 then [.highWriteSyscallCount] else []
   | none => []) ++
  (match writeHeavyRow with
   | some _ => []
   | none => [.ioBoundGeneral]) ++
  (let ctx := pyOr co.context_switches 0
   if elapsedOf t ≠ 0 ∧ ctx / elapsedOf t > 100 then [.highContextSwitchRate]
   else [])

/-- Source lines 242 to 259: suggestions for the Memory verdict. -/
def memSuggestionsOf (ca : Cache) (m : MemorySec) : List Suggestion :=
  (match ca.llc_miss_rate_pct with
   | some x =>
     if x ≥ 30 then [.veryHighLlcMissRate x]
     else if x ≥ 10 then [.highLlcMissRate x]
     else []
   | none => []) ++
  (match ca.l1d_miss_rate_pct with
   | some x => if x ≥ 15 then [.highL1dMissRate x] else []
   | none => []) ++
  (match m.dtlb_miss_rate_pct with
   | some x => if x ≥ 2 then [.highTlbMissRate x] else []
   | none => []) ++
  (match m.ram_total_bandwidth_mbps with
   | some x => if x ≥ 5000 then [.highRamBandwidth x] else []
   | none => [])

/-- Source lines 261 to 285: suggestions for the CPU verdict. -/
def cpuSuggestionsOf (c : Cpu) (co : Concurrency) : List Suggestion :=
  (match c.ipc with
   | some x => if x < 1 then [.lowIpc x] else []
   | none => []) ++
  (match c.frontend_stall_pct with
   | some x => if x ≥ 30 then [.highFrontendStalls x] else []
   | none => []) ++
  (match c.backend_stall_pct with
   | some x => if x ≥ 30 then [.highBackendStalls x] else []
   | none => []) ++
  (match c.branch_miss_rate_pct with
   | some x => if x ≥ 5 then [.highBranchMissRate x] else []
   | none => []) ++
  (let threads := pyOr co.threads 1
   match c.ipc with
   | some x => if x ≥ 3/2 ∧ threads = 1 then [.goodIpcSingleThread x] else []
   | none => []) ++
  (match c.ipc with
   | some x => if 1 ≤ x ∧ x < 2 then [.moderateIpcVectorize] else []
   | none => [])

/-- Source lines 200 to 285: the full suggestions list, in source order. -/
def suggestionsOf (t : Timing) (c : Cpu) (ca : Cache) (m : MemorySec)
    (co : Concurrency) (s : Syscalls) : List Suggestion :=
  let primary := primaryOf t c ca m s
  (if primary = "No bottleneck" then [.shortLivedApp] else []) ++
  bufferedWriteSuggestionsOf t s primary ++
  (if primary = "I/O/Wait" then ioSuggestionsOf t co s
   else if primary = "Memory" then memSuggestionsOf ca m
   else if primary = "CPU" then cpuSuggestionsOf c co
   else [])

/-- The classifier (src/analyzer.py, `classify_performance`).  The returned
confidence is the raw branch confidence clamped to the unit interval and
rounded to two decimals (source line 290). -/
def classify_performance (t : Timing) (c : Cpu) (ca : Cache) (m : MemorySec)
    (co : Concurrency) (s : Syscalls) : Classification :=
  { primary_bottleneck := primaryOf t c ca m s
    parallel_potential := parallelPotentialOf t c ca m co s
    confidence := pyRound (min (max (confidenceRawOf t c ca m s) 0) 1) 2
    reasons := reasonsOf t c ca m s
    suggestions := suggestionsOf t c ca m co s }

/-!
String utilities.  All text processing is done on `List Char` (the
underlying data of `String`) with first-principles definitions, mirroring
the Python string operations the parsers use (`split`, `strip`, `lower`,
`replace` with an empty replacement, substring membership, `rsplit`).
-/

/-- Whitespace recognized by Python `str.split()` and `str.strip()` for the
characters that occur in the tool outputs (space, tab, carriage return,
newline). -/
def isWsp (c : Char) : Bool :=
  c = ' ' || c = '\t' || c = '\r' || c = '\n'

/-- Split at every character satisfying `p` (keeping empty pieces). -/
def splitPred (p : Char → Bool) : List Char → List (List Char)
  | [] => [[]]
  | c :: rest =>
    let r := splitPred p rest
    if p c then [] :: r
    else
      match r with
      | [] => [[c]]
      | h :: ts => (c :: h) :: ts

/-- Python `s.split()`: whitespace-separated tokens, empties dropped. -/
def pySplitWs (l : List Char) : List (List Char) :=
  (splitPred isWsp l).filter fun p => p ≠ []

/-- Python `s.split(sep)` for a one-character separator. -/
def splitOnChar (sep : Char) (l : List Char) : List (List Char) :=
  splitPred (fun c => c = sep) l

/-- Python `s.strip()`. -/
def trimChars (l : List Char) : List Char :=
  ((l.dropWhile isWsp).reverse.dropWhile isWsp).reverse

/-- ASCII lowercase of one character (the perf labels are ASCII). -/
def lowerChar (c : Char) : Char :=
  if 'A' ≤ c ∧ c ≤ 'Z' then Char.ofNat (c.toNat + 32) else c

/-- Python `s.lower()` on ASCII text. -/
def lowerChars (l : List Char) : List Char := l.map lowerChar

/-- Substring membership: Python `needle in hay`. -/
def containsSub (needle hay : List Char) : Bool :=
  hay.tails.any fun tl => needle.isPrefixOf tl

/-- Fuelled worker for `removeSub` (the fuel is the input length, which
bounds the recursion). -/
def removeSubFuel : ℕ → List Char → List Char → List Char
  | 0, _, _ => []
  | _ + 1, _, [] => []
  | n + 1, pat, c :: rest =>
    if pat ≠ [] ∧ pat.isPrefixOf (c :: rest) then
      removeSubFuel n pat ((c :: rest).drop pat.length)
    else c :: removeSubFuel n pat rest

/-- Python `s.replace(pat, "")`: delete every non-overlapping occurrence of
`pat`, scanning left to right. -/
def removeSub (pat l : List Char) : List Char :=
  removeSubFuel l.length pat l

/-!
Numeric token parsing.  Python `int(s)` and `float(s)` on the decimal forms
the tool outputs use: optional sign, digits, and for floats one optional
decimal point.  Exotic accepted forms (exponents, inf/nan, underscores) do
not occur in the tool outputs and are not modelled; on them, as on any other
malformed token, the parsers here return `none` where Python raises
`ValueError` (which every call site catches and turns into a skip).
-/

/-- Value of a digit list, most significant first. -/
def digitsVal (ds : List Char) : ℕ :=
  ds.foldl (fun a c => 10 * a + (c.toNat - 48)) 0

/-- Python `int(s)` on sign-and-digits tokens. -/
def parsePyInt (s : List Char) : Option ℤ :=
  match trimChars s with
  | [] => none
  | '-' :: ds =>
    if ds ≠ [] ∧ ds.all Char.isDigit then some (-(digitsVal ds : ℤ)) else none
  | '+' :: ds =>
    if ds ≠ [] ∧ ds.all Char.isDigit then some (digitsVal ds : ℤ) else none
  | ds => if ds.all Char.isDigit then some (digitsVal ds : ℤ) else none

/-- Python `float(s)` on plain decimal tokens. -/
def parsePyFloat (s : List Char) : Option ℚ :=
  let t := trimChars s
  let sign : ℚ := if t.head? = some '-' then -1 else 1
  let ds := match t with
    | '-' :: rest => rest
    | '+' :: rest => rest
    | l => l
  let intPart := ds.takeWhile fun c => c ≠ '.'
  match ds.drop intPart.length with
  | [] =>
    if intPart ≠ [] ∧ intPart.all Char.isDigit then
      some (sign * (digitsVal intPart : ℚ))
    else none
  | _ :: frac =>
    if (intPart ≠ [] ∨ frac ≠ []) ∧ intPart.all Char.isDigit ∧
       frac.all Char.isDigit then
      some (sign * ((digitsVal intPart : ℚ) +
        (digitsVal frac : ℚ) / (10 : ℚ) ^ frac.length))
    else none

/-!
Counter-summary parser (src/profiler.py, `run_perf_stat`, lines 56 to 158).
The subprocess invocation is out of scope; the parsing loop over the
captured output is embedded below.
-/

/-- Source lines 62 to 66: normalize the first token (strip thousands
separators and the two halves of a literal `<not supported>` marker) and
parse it as float when it contains a dot, as int otherwise.  `none` models
the `continue` taken on an empty or unparseable token, so an unsupported
counter is recorded nowhere (unknown, not zero). -/
def perfStatValue (tok : List Char) : Option ℚ :=
  let value_str :=
    trimChars (removeSub "supported>".data (removeSub "<not".data
      (removeSub ",".data tok)))
  if value_str = [] then none
  else if value_str.contains '.' then parsePyFloat value_str
  else (parsePyInt value_str).map fun z => (z : ℚ)

/-- Source lines 57 to 156: classify one output line.  Returns the metrics
key the line is recorded under together with its numeric value, or `none`
when the line is skipped (fewer than two tokens, or unparseable first
token).  The label tests are substring tests against the lowercased line,
in the source's if/elif order.  In the timing branches the source re-parses
`parts[0]` directly (lines 76, 80, 82, 84); on the plain numeric tokens
those lines carry this equals the already-parsed value used here. -/
def perfLineField (line : List Char) : Option (String × ℚ) :=
  let parts := pySplitWs line
  if parts.length < 2 then none
  else
    match parts with
    | [] => none
    | tok :: _ =>
      match perfStatValue tok with
      | none => none
      | some value =>
        let ll := lowerChars line
        let has := fun (lab : String) => containsSub lab.data ll
        if has "task-clock" then some ("task_clock_ms", value)
        else if has "seconds time elapsed" then some ("elapsed_s", value)
        else if has "seconds user" then some ("user_s", value)
        else if has "seconds sys" then some ("sys_s", value)
        else if has "instructions" then some ("instructions", value)
        else if has "ref-cycles" || has "reference cycles" then
          some ("ref_cycles", value)
        else if has "cycles" && !has "ref-cycles" then some ("cycles", value)
        else if has "branch-misses" then some ("branch_misses", value)
        else if has "branches" then some ("branches", value)
        else if has "l1-dcache-loads" || has "l1d.replacement" then
          some ("l1_dcache_loads", value)
        else if has "l1-dcache-load-misses" then
          some ("l1_dcache_load_misses", value)
        else if has "l1-dcache-stores" then some ("l1_dcache_stores", value)
        else if has "l1-icache-loads" || has "l1i.replacements" ||
                has "l1i.replacement" then
          some ("l1_icache_loads", value)
        else if has "l1-icache-load-misses" then
          some ("l1_icache_load_misses", value)
        else if has "llc-loads" then some ("llc_loads", value)
        else if has "llc-load-misses" then some ("llc_load_misses", value)
        else if has "llc-stores" then some ("llc_stores", value)
        else if has "llc-store-misses" then some ("llc_store_misses", value)
        else if has "dtlb-loads" || containsSub "dtlb-loads".data line then
          some ("dtlb_loads", value)
        else if has "dtlb-load-misses" then some ("dtlb_load_misses", value)
        else if has "itlb-loads" then some ("itlb_loads", value)
        else if has "itlb-load-misses" then some ("itlb_load_misses", value)
        else if has "stalled-cycles-frontend" then
          some ("stalled_cycles_frontend", value)
        else if has "stalled-cycles-backend" then
          some ("stalled_cycles_backend", value)
        else if has "context-switches" then some ("context_switches", value)
        else if has "cpu-migrations" then some ("cpu_migrations", value)
        else if has "page-faults" && !has "major" && !has "minor" then
          some ("page_faults", value)
        else if has "minor-faults" then some ("minor_faults", value)
        else if has "major-faults" then some ("major_faults", value)
        else if has "alignment-faults" then some ("alignment_faults", value)
        else if has "emulation-faults" then some ("emulation_faults", value)
        else none

/-- Python dict assignment `d[k] = v` on an association list: replace the
binding in place, or append a new one. -/
def dictSet {α : Type} : List (String × α) → String → α → List (String × α)
  | [], k, v => [(k, v)]
  | (k', v') :: rest, k, v =>
    if k' = k then (k, v) :: rest else (k', v') :: dictSet rest k v

/-- Python dict lookup `d.get(k)` on an association list. -/
def alookup {α : Type} : List (String × α) → String → Option α
  | [], _ => none
  | (k', v) :: rest, k => if k' = k then some v else alookup rest k

/-- The parsing loop of `run_perf_stat` over the captured output: one
metrics dictionary built line by line. -/
def run_perf_stat_parse (output : String) : List (String × ℚ) :=
  (splitOnChar '\n' output.data).foldl
    (fun metrics line =>
      match perfLineField line with
      | some (k, v) => dictSet metrics k v
      | none => metrics)
    []

/-!
Verbose-timing parser (src/profiler.py, `run_time_v_timing`, lines 160 to
209).
-/

/-- Text after the last colon: Python `s.rsplit(":", 1)[1]`.  `none` models
the `IndexError` raised when the string has no colon. -/
def afterLastColon (s : List Char) : Option (List Char) :=
  let rev := s.reverse
  let pre := rev.takeWhile fun c => c ≠ ':'
  if pre.length = rev.length then none else some pre.reverse

/-- Text after the first colon: Python `s.split(":", 1)[1]`. -/
def afterFirstColon (s : List Char) : Option (List Char) :=
  match splitOnChar ':' s with
  | [] => none
  | [_] => none
  | _ :: rest => some (List.intercalate [':'] rest)

/-- Source lines 174 to 185: `parse_elapsed_to_seconds`.  A colon-free value
is a float in seconds; otherwise the value is split on colons and read as
`[[HH:]MM:]SS`, with `hrs * 3600 + mins * 60 + secs`.  `none` models the
`except` returning `None`. -/
def parse_elapsed_to_seconds (s : List Char) : Option ℚ :=
  let s := trimChars s
  if ¬ s.contains ':' then parsePyFloat s
  else
    let parts := (splitOnChar ':' s).map trimChars
    match parsePyFloat (parts.getLastD []) with
    | none => none
    | some secs =>
      let minsO : Option ℤ :=
        if parts.length ≥ 2 then parsePyInt (parts.getD (parts.length - 2) [])
        else some 0
      let hrsO : Option ℤ :=
        if parts.length ≥ 3 then parsePyInt (parts.getD (parts.length - 3) [])
        else some 0
      match minsO, hrsO with
      | some mins, some hrs => some ((hrs : ℚ) * 3600 + (mins : ℚ) * 60 + secs)
      | _, _ => none

/-- Source lines 188 to 205: handle one line of the `/usr/bin/time -v`
report.  The elapsed branch takes the text after the LAST colon of the line
(`ls.rsplit(":", 1)[1]`) and feeds it to `parse_elapsed_to_seconds`. -/
def timeVLine (timing : List (String × ℚ)) (line : List Char) :
    List (String × ℚ) :=
  let ls := trimChars line
  if "User time (seconds):".data.isPrefixOf ls then
    match (afterFirstColon ls).bind fun v => parsePyFloat (trimChars v) with
    | some x => dictSet timing "user_s" x
    | none => timing
  else if "System time (seconds):".data.isPrefixOf ls then
    match (afterFirstColon ls).bind fun v => parsePyFloat (trimChars v) with
    | some x => dictSet timing "sys_s" x
    | none => timing
  else if "Elapsed (wall clock) time".data.isPrefixOf ls then
    match (afterLastColon ls).bind fun v =>
        parse_elapsed_to_seconds (trimChars v) with
    | some ev => dictSet timing "elapsed_s" ev
    | none => timing
  else timing

/-- The parsing part of `run_time_v_timing`: fold the line handler over the
report and derive `wait_time_s = max(0, elapsed - (user + sys))` when all
three timings were found (source lines 206 to 208). -/
def run_time_v_timing_parse (lines : List String) : List (String × ℚ) :=
  let timing := lines.foldl (fun tm l => timeVLine tm l.data) []
  if (alookup timing "elapsed_s").isSome ∧ (alookup timing "user_s").isSome ∧
     (alookup timing "sys_s").isSome then
    dictSet timing "wait_time_s"
      (max 0 ((alookup timing "elapsed_s").getD 0 -
        ((alookup timing "user_s").getD 0 + (alookup timing "sys_s").getD 0)))
  else timing

/-!
Document model.  `classify_result` and the augment mode of `main`
(src/analyzer.py, lines 296 to 327) operate on a parsed JSON document, a
Python dict from string keys to heterogeneous values.
-/

/-- A parsed JSON value as held in the Python document dict.  `cls` is the
in-memory classification dict that augment mode stores into the document
(`data["performance_classification"] = cls`); it is kept structured rather
than re-serialized, since writing to disk is out of scope. -/
inductive PyVal where
  | null
  | num (q : ℚ)
  | str (s : String)
  | list (xs : List PyVal)
  | obj (fields : List (String × PyVal))
  | cls (c : Classification)

/-- Whether a value is JSON null. -/
def PyVal.isNull : PyVal → Bool
  | .null => true
  | _ => false

/-- Fields of a dict value.  A non-dict section value is treated as the
empty dict; in Python a falsy one becomes `{}` via `(d or {})` and a truthy
one would raise inside `classify_performance` (no claim exercises that). -/
def secFields : PyVal → List (String × PyVal)
  | .obj fs => fs
  | _ => []

/-- Numeric reading of an optional field value, as the classifier's
comparisons consume it.  A non-numeric value in a numeric field is outside
the schema and reads as unknown. -/
def asQ : Option PyVal → Option ℚ
  | some (.num q) => some q
  | _ => none

/-- Extraction of the timing fields the classifier reads. -/
def toTiming (v : PyVal) : Timing :=
  let d := secFields v
  { elapsed_s := asQ (alookup d "elapsed_s")
    wait_time_s := asQ (alookup d "wait_time_s")
    cpu_utilization_per_core_pct :=
      asQ (alookup d "cpu_utilization_per_core_pct") }

/-- Extraction of the cpu fields the classifier reads. -/
def toCpu (v : PyVal) : Cpu :=
  let d := secFields v
  { ipc := asQ (alookup d "ipc")
    branch_miss_rate_pct := asQ (alookup d "branch_miss_rate_pct")
    frontend_stall_pct := asQ (alookup d "frontend_stall_pct")
    backend_stall_pct := asQ (alookup d "backend_stall_pct") }

/-- Extraction of the cache fields the classifier reads. -/
def toCache (v : PyVal) : Cache :=
  let d := secFields v
  { l1d_miss_rate_pct := asQ (alookup d "l1d_miss_rate_pct")
    llc_miss_rate_pct := asQ (alookup d "llc_miss_rate_pct") }

/-- Extraction of the memory fields the classifier reads. -/
def toMemorySec (v : PyVal) : MemorySec :=
  let d := secFields v
  { dtlb_miss_rate_pct := asQ (alookup d "dtlb_miss_rate_pct")
    ram_total_bandwidth_mbps := asQ (alookup d "ram_total_bandwidth_mbps") }

/-- Extraction of the concurrency fields the classifier reads. -/
def toConcurrency (v : PyVal) : Concurrency :=
  let d := secFields v
  { threads := asQ (alookup d "threads")
    context_switches := asQ (alookup d "context_switches") }

/-- Extraction of one syscall-table row, with the numeric defaults the
classifier applies at access. -/
def toSyscallRow (v : PyVal) : SyscallRow :=
  let d := secFields v
  { syscall :=
      match alookup d "syscall" with
      | some (.str n) => some n
      | _ => none
    calls := (asQ (alookup d "calls")).getD 0
    seconds := (asQ (alookup d "seconds")).getD 0
    pct_time := (asQ (alookup d "pct_time")).getD 0 }

/-- Extraction of the syscalls section. -/
def toSyscalls (v : PyVal) : Syscalls :=
  let d := secFields v
  { rows :=
      match alookup d "syscalls" with
      | some (.list xs) => some (xs.map toSyscallRow)
      | _ => none
    total_seconds :=
      match alookup d "total" with
      | some (.obj fs) => asQ (alookup fs "seconds")
      | _ => none }

/-- Source lines 296 to 304: `classify_result` pulls the six sections out of
the document (empty dict when absent) and runs the classifier. -/
def classify_result (result : List (String × PyVal)) : Classification :=
  classify_performance
    (toTiming ((alookup result "timing").getD (.obj [])))
    (toCpu ((alookup result "cpu").getD (.obj [])))
    (toCache ((alookup result "cache").getD (.obj [])))
    (toMemorySec ((alookup result "memory").getD (.obj [])))
    (toConcurrency ((alookup result "concurrency").getD (.obj [])))
    (toSyscalls ((alookup result "syscalls").getD (.obj [])))

/-- Augment mode of `main` (src/analyzer.py lines 321 to 324):
`data["performance_classification"] = classify_result(data)`, a Python dict
assignment (overwrite in place, or append as the newest key). -/
def augment (data : List (String × PyVal)) : List (String × PyVal) :=
  dictSet data "performance_classification" (.cls (classify_result data))

/-!
Schema normalization (src/profiler.py): `ensure_keys` and the default
dictionaries of `main`, lines 14 to 21 and 880 to 1002.
-/

/-- Source lines 14 to 21: ensure that each key from `defaults` exists in
`dest`; a missing key is assigned its default value (appended, preserving
insertion order), an existing key is left untouched. -/
def ensure_keys {α : Type} (dest defaults : List (String × α)) :
    List (String × α) :=
  defaults.foldl
    (fun d kv => if (alookup d kv.1).isSome then d else d ++ [kv]) dest

/-- Source lines 881 to 889: the timing-section schema defaults. -/
def default_timing : List (String × PyVal) :=
  [("elapsed_s", .null), ("user_s", .null), ("sys_s", .null),
   ("wait_time_s", .null), ("task_clock_ms", .null),
   ("cpu_utilization_pct", .null), ("cpu_utilization_per_core_pct", .null)]

/-- Source lines 891 to 906: the cpu-section schema defaults. -/
def default_cpu : List (String × PyVal) :=
  [("instructions", .null), ("cycles", .null), ("ref_cycles", .null),
   ("ipc", .null), ("frequency_ratio", .null),
   ("stalled_cycles_frontend", .null), ("frontend_stall_pct", .null),
   ("stalled_cycles_backend", .null), ("backend_stall_pct", .null),
   ("branches", .null), ("branch_misses", .null),
   ("branch_miss_rate_pct", .null), ("instructions_per_second", .null),
   ("note", .null)]

/-- Source lines 908 to 921: the cache-section schema defaults. -/
def default_cache : List (String × PyVal) :=
  [("l1d_loads", .null), ("l1d_load_misses", .null), ("l1d_stores", .null),
   ("l1d_miss_rate_pct", .null), ("l1i_loads", .null),
   ("l1i_load_misses", .null), ("l1i_miss_rate_pct", .null),
   ("llc_loads", .null), ("llc_load_misses", .null), ("llc_stores", .null),
   ("llc_store_misses", .null), ("llc_miss_rate_pct", .null)]

/-- Source lines 923 to 929: the concurrency-section schema defaults; the
threads default is the measured thread count (always computed by line
815). -/
def default_concurrency (numThreads : PyVal) : List (String × PyVal) :=
  [("context_switches", .null), ("cpu_migrations", .null),
   ("ctx_switches_per_second", .null), ("migrations_per_second", .null),
   ("threads", numThreads)]

/-- Source lines 931 to 972: the memory-section schema defaults. -/
def default_memory : List (String × PyVal) :=
  [("dtlb_loads", .null), ("dtlb_load_misses", .null),
   ("dtlb_miss_rate_pct", .null), ("itlb_loads", .null),
   ("itlb_load_misses", .null), ("itlb_miss_rate_pct", .null),
   ("page_faults", .null), ("minor_faults", .null), ("major_faults", .null),
   ("alignment_faults", .null), ("emulation_faults", .null),
   ("ram_read_bytes", .null), ("ram_read_mb", .null),
   ("ram_read_bandwidth_mbps", .null), ("ram_write_bytes", .null),
   ("ram_write_mb", .null), ("ram_write_bandwidth_mbps", .null),
   ("ram_total_bytes", .null), ("ram_total_mb", .null),
   ("ram_total_bandwidth_mbps", .null), ("ram_read_pct", .null),
   ("ram_write_pct", .null), ("l1_cache_traffic_mb", .null),
   ("l1_cache_bandwidth_mbps", .null), ("max_rss_kb", .null),
   ("massif_peak_heap_bytes", .null), ("massif_peak_heap_extra_bytes", .null),
   ("massif_peak_total_bytes", .null), ("massif_peak_stacks_bytes", .null),
   ("massif_peak_time", .null), ("massif_peak_snapshot", .null),
   ("memcheck", .null)]

/-- Shape of the `run_strace_summary` return value (src/profiler.py line
289): a dict with the parsed rows and the total aggregate when any row was
parsed, otherwise the raw-text fallback. -/
def strace_result (rows : List PyVal) (total : PyVal) (rawText : String) :
    List (String × PyVal) :=
  if rows.isEmpty then [("raw", .str rawText)]
  else [("syscalls", .list rows), ("total", total)]

/-- Source lines 999 to 1002 of `main`: force the syscalls section to hold
either a "syscalls" or "raw" key (the non-dict guard of line 999 cannot
fire on a dict input and is not modelled). -/
def normalize_syscalls (s : List (String × PyVal)) : List (String × PyVal) :=
  if (alookup s "syscalls").isSome ∨ (alookup s "raw").isSome then s
  else [("syscalls", .list []), ("total", .obj [])]

/-- Derived miss-rate percentage (src/profiler.py, the five identical
blocks at lines 661 to 701, e.g.
`if perf_data.get("l1_dcache_loads") and perf_data.get("l1_dcache_load_misses"):
   rate = 100.0 * misses / max(1, loads);
   ... = round(min(rate, 100.0), 6)
 else: ... = None`).
Both counters must be present and truthy (nonzero) for the rate to be
derived; the divisor is `max(1, loads)` and the result is clamped to 100
and rounded to six decimals. -/
def derive_miss_rate_pct : Option ℚ → Option ℚ → Option ℚ
  | some loads, some misses =>
    if loads ≠ 0 ∧ misses ≠ 0 then
      some (pyRound (min (100 * misses / max 1 loads) 100) 6)
    else none
  | _, _ => none

/-!
Association-list lemmas used by the schema-completeness and augment
theorems.
-/

theorem alookup_append_left {α : Type} {l₁ l₂ : List (String × α)} {k : String}
    {v : α} (h : alookup l₁ k = some v) : alookup (l₁ ++ l₂) k = some v := by
  induction l₁ with
  | nil => simp [alookup] at h
  | cons p rest ih =>
    rcases p with ⟨k', v'⟩
    by_cases hk : k' = k
    · simp only [List.cons_append, alookup, if_pos hk] at h ⊢
      exact h
    · simp only [List.cons_append, alookup, if_neg hk] at h ⊢
      exact ih h

theorem alookup_append_none {α : Type} {l₁ l₂ : List (String × α)} {k : String}
    (h : alookup l₁ k = none) : alookup (l₁ ++ l₂) k = alookup l₂ k := by
  induction l₁ with
  | nil => simp
  | cons p rest ih =>
    rcases p with ⟨k', v'⟩
    by_cases hk : k' = k
    · simp [alookup, if_pos hk] at h
    · simp only [List.cons_append, alookup, if_neg hk] at h ⊢
      exact ih h

theorem ensure_keys_cons {α : Type} (dest : List (String × α))
    (d : String × α) (ds : List (String × α)) :
    ensure_keys dest (d :: ds) =
      ensure_keys (if (alookup dest d.1).isSome then dest else dest ++ [d])
        ds := by
  simp [ensure_keys, List.foldl]

theorem ensure_keys_keeps {α : Type} (defaults : List (String × α)) :
    ∀ (dest : List (String × α)) (k : String) (v : α),
      alookup dest k = some v → alookup (ensure_keys dest defaults) k = some v := by
  induction defaults with
  | nil => intro dest k v h; simpa [ensure_keys] using h
  | cons d ds ih =>
    intro dest k v h
    rw [ensure_keys_cons]
    by_cases hd : (alookup dest d.1).isSome
    · rw [if_pos hd]; exact ih dest k v h
    · rw [if_neg hd]; exact ih _ k v (alookup_append_left h)

theorem ensure_keys_complete {α : Type} (defaults : List (String × α)) :
    ∀ (dest : List (String × α)) (k : String),
      (alookup defaults k).isSome →
      (alookup (ensure_keys dest defaults) k).isSome := by
  induction defaults with
  | nil => intro dest k h; simp [alookup] at h
  | cons d ds ih =>
    intro dest k h
    rw [ensure_keys_cons]
    rcases d with ⟨dk, dv⟩
    unfold alookup at h
    by_cases hk : dk = k
    · subst hk
      by_cases hd : (alookup dest dk).isSome
      · rw [if_pos hd]
        obtain ⟨v, hv⟩ := Option.isSome_iff_exists.mp hd
        have := ensure_keys_keeps ds dest dk v hv
        simp [this]
      · rw [if_neg hd]
        have hnone : alookup dest dk = none := by
          cases hcase : alookup dest dk with
          | none => rfl
          | some v => exact absurd (by simp [hcase]) hd
        have happ : alookup (dest ++ [(dk, dv)]) dk = some dv := by
          rw [alookup_append_none hnone]; simp [alookup]
        have := ensure_keys_keeps ds _ dk dv happ
        simp [this]
    · rw [if_neg hk] at h
      by_cases hd : (alookup dest (dk, dv).1).isSome
      · rw [if_pos hd]; exact ih dest k h
      · rw [if_neg hd]; exact ih _ k h

theorem ensure_keys_fills {α : Type} (defaults : List (String × α)) :
    ∀ (dest : List (String × α)) (k : String) (v : α),
      alookup dest k = none → alookup defaults k = some v →
      alookup (ensure_keys dest defaults) k = some v := by
  induction defaults with
  | nil => intro dest k v _ h; simp [alookup] at h
  | cons d ds ih =>
    intro dest k v hdest h
    rw [ensure_keys_cons]
    rcases d with ⟨dk, dv⟩
    unfold alookup at h
    by_cases hk : dk = k
    · subst hk
      rw [if_pos rfl] at h
      have hd : ¬ (alookup dest dk).isSome := by simp [hdest]
      rw [if_neg hd]
      have happ : alookup (dest ++ [(dk, dv)]) dk = some dv := by
        rw [alookup_append_none hdest]; simp [alookup]
      exact (ensure_keys_keeps ds _ dk dv happ).trans h
    · rw [if_neg hk] at h
      by_cases hd : (alookup dest (dk, dv).1).isSome
      · rw [if_pos hd]; exact ih dest k v hdest h
      · rw [if_neg hd]
        have hstill : alookup (dest ++ [(dk, dv)]) k = none := by
          rw [alookup_append_none hdest]; simp [alookup, hk]
        exact ih _ k v hstill h

theorem alookup_dictSet_self {α : Type} (d : List (String × α)) (k : String)
    (v : α) : alookup (dictSet d k v) k = some v := by
  induction d with
  | nil => simp [dictSet, alookup]
  | cons p rest ih =>
    rcases p with ⟨k', v'⟩
    unfold dictSet
    by_cases hk : k' = k
    · simp [hk, alookup]
    · simp only [if_neg hk]
      unfold alookup
      simp [hk, ih]

theorem alookup_dictSet_other {α : Type} (d : List (String × α))
    (k k' : String) (v : α) (h : k' ≠ k) :
    alookup (dictSet d k v) k' = alookup d k' := by
  induction d with
  | nil => simp [dictSet, alookup, Ne.symm h]
  | cons p rest ih =>
    rcases p with ⟨k₀, v₀⟩
    by_cases hk : k₀ = k
    · subst hk
      simp only [dictSet, if_pos rfl]
      simp [alookup, Ne.symm h]
    · simp only [dictSet, if_neg hk]
      by_cases hk' : k₀ = k'
      · simp [alookup, hk']
      · simp [alookup, hk', ih]

theorem keys_dictSet_of_none {α : Type} (d : List (String × α)) (k : String)
    (v : α) (h : alookup d k = none) :
    (dictSet d k v).map Prod.fst = d.map Prod.fst ++ [k] := by
  induction d with
  | nil => simp [dictSet]
  | cons p rest ih =>
    rcases p with ⟨k₀, v₀⟩
    unfold alookup at h
    by_cases hk : k₀ = k
    · simp [hk] at h
    · unfold dictSet
      simp only [if_neg hk]
      simp [ih (by simpa [hk] using h)]

/-!
Helper lemmas about the verdict cascade.
-/

theorem primaryOf_CPU_no_higher_branch {t : Timing} {c : Cpu} {ca : Cache}
    {m : MemorySec} {s : Syscalls} (h : primaryOf t c ca m s = "CPU") :
    shortAppOf t s = false ∧ ioCondOf t s = false := by
  cases hs : shortAppOf t s <;> cases hio : ioCondOf t s <;>
    simp [primaryOf, hs, hio] at h ⊢

theorem clamped_confidence_nonneg (q : ℚ) :
    0 ≤ pyRound (min (max q 0) 1) 2 :=
  pyRound_nonneg (le_min (le_max_right q 0) zero_le_one) 2

theorem clamped_confidence_le_one (q : ℚ) :
    pyRound (min (max q 0) 1) 2 ≤ 1 := by
  have h : min (max q 0) 1 ≤ ((1 : ℤ) : ℚ) := by
    rw [Int.cast_one]
    exact min_le_right (max q 0) 1
  simpa using pyRound_le h 2

/-!
Claim theorems.
-/

/-- C1.  For every input document, over any combination of known and unknown
fields in its six sections, `classify_performance` returns exactly one
`primary_bottleneck` drawn from the fixed enumeration CPU, Memory, I/O/Wait,
No bottleneck, and a confidence in the closed interval [0, 1]; it never
fails to produce a verdict, the default cascade branch firing when no other
condition matches. -/
theorem C1_classifier_total_verdict_and_confidence
    (t : Timing) (c : Cpu) (ca : Cache) (m : MemorySec) (co : Concurrency)
    (s : Syscalls) :
    (classify_performance t c ca m co s).primary_bottleneck ∈
      (["CPU", "Memory", "I/O/Wait", "No bottleneck"] : List String) ∧
    0 ≤ (classify_performance t c ca m co s).confidence ∧
    (classify_performance t c ca m co s).confidence ≤ 1 := by
  refine ⟨?_, ?_, ?_⟩
  · show primaryOf t c ca m s ∈ _
    unfold primaryOf
    split
    · simp
    · split
      · simp
      · split <;> simp
  · exact clamped_confidence_nonneg _
  · exact clamped_confidence_le_one _

/-- C2, counterexample.  The claim demands that pushing a memory miss-rate
field past its threshold either flips a CPU verdict to Memory, or leaves it
CPU only when the short-lived or I/O condition already matched.  In the
document below the backend stall percentage is known and equal to 10, the
verdict is CPU, and raising the LLC miss rate from 2 to 8 (past the
threshold 5) leaves the verdict CPU even though, the verdict being CPU,
neither the short-lived nor the I/O condition matched (each would have
produced its own verdict) — so the claim as stated is false. -/
theorem C2_missrate_monotonicity_counterexample :
    (classify_performance ⟨none, none, none⟩ ⟨none, none, none, some 10⟩
      ⟨none, some 2⟩ ⟨none, none⟩ ⟨none, none⟩
      ⟨none, none⟩).primary_bottleneck = "CPU" ∧
    ((8 : ℚ) ≥ 5) ∧
    (classify_performance ⟨none, none, none⟩ ⟨none, none, none, some 10⟩
      ⟨none, some 8⟩ ⟨none, none⟩ ⟨none, none⟩
      ⟨none, none⟩).primary_bottleneck = "CPU" ∧
    (classify_performance ⟨none, none, none⟩ ⟨none, none, none, some 10⟩
      ⟨none, some 8⟩ ⟨none, none⟩ ⟨none, none⟩
      ⟨none, none⟩).primary_bottleneck ≠ "Memory" ∧
    shortAppOf ⟨none, none, none⟩ ⟨none, none⟩ = false ∧
    ioCondOf ⟨none, none, none⟩ ⟨none, none⟩ = false := by
  refine ⟨by with_unfolding_all rfl, by norm_num, by with_unfolding_all rfl,
    ?_, by with_unfolding_all rfl, by with_unfolding_all rfl⟩
  have h : (classify_performance ⟨none, none, none⟩ ⟨none, none, none, some 10⟩
      ⟨none, some 8⟩ ⟨none, none⟩ ⟨none, none⟩
      ⟨none, none⟩).primary_bottleneck = "CPU" := by with_unfolding_all rfl
  rw [h]
  simp

/-- C2, amended.  For every document that `classify_performance` classifies
as CPU, changing the memory miss-rate fields (`llc_miss_rate_pct`,
`l1d_miss_rate_pct`, `dtlb_miss_rate_pct`) while holding every other field
fixed never changes the verdict to I/O/Wait or to No bottleneck: the new
verdict is Memory or stays CPU.  (It can stay CPU with no higher-priority
condition matched, e.g. when the backend stall percentage is known and below
20.) -/
theorem C2_missrate_monotonicity_amended
    (t : Timing) (c : Cpu) (ca : Cache) (m : MemorySec) (co : Concurrency)
    (s : Syscalls) (l1d llc dtlb : Option ℚ)
    (h : (classify_performance t c ca m co s).primary_bottleneck = "CPU") :
    (classify_performance t c ⟨l1d, llc⟩ ⟨dtlb, m.ram_total_bandwidth_mbps⟩
      co s).primary_bottleneck ∈ (["CPU", "Memory"] : List String) := by
  have hp : primaryOf t c ca m s = "CPU" := h
  obtain ⟨hs, hio⟩ := primaryOf_CPU_no_higher_branch hp
  show primaryOf t c ⟨l1d, llc⟩ ⟨dtlb, m.ram_total_bandwidth_mbps⟩ s ∈ _
  unfold primaryOf
  rw [hs, hio]
  cases hm : memCondOf c ⟨l1d, llc⟩ ⟨dtlb, m.ram_total_bandwidth_mbps⟩ <;> simp

/-- C2, witness.  The all-unknown document is classified CPU; setting the
LLC miss rate to 8 (past the threshold 5) yields a verdict in
CPU-or-Memory. -/
theorem C2_missrate_monotonicity_witness :
    (classify_performance ⟨none, none, none⟩ ⟨none, none, none, none⟩
      ⟨none, some 8⟩ ⟨none, none⟩ ⟨none, none⟩
      ⟨none, none⟩).primary_bottleneck ∈ (["CPU", "Memory"] : List String) :=
  C2_missrate_monotonicity_amended ⟨none, none, none⟩ ⟨none, none, none, none⟩
    ⟨none, none⟩ ⟨none, none⟩ ⟨none, none⟩ ⟨none, none⟩ none (some 8) none
    (by with_unfolding_all rfl)

/-- C10.  For every document whose timing section has `elapsed_s` equal to 0
or unknown, the wait fraction is 0 (no division happens), the short-lived
and I/O conditions are both off (the syscall-time ratio is never evaluated),
and the verdict is never I/O/Wait and never No bottleneck. -/
theorem C10_zero_elapsed_no_io_verdict
    (t : Timing) (c : Cpu) (ca : Cache) (m : MemorySec) (co : Concurrency)
    (s : Syscalls) (h : t.elapsed_s = none ∨ t.elapsed_s = some 0) :
    waitFracOf t = 0 ∧
    shortAppOf t s = false ∧
    ioCondOf t s = false ∧
    (classify_performance t c ca m co s).primary_bottleneck ≠ "I/O/Wait" ∧
    (classify_performance t c ca m co s).primary_bottleneck ≠
      "No bottleneck" := by
  have he : elapsedOf t = 0 := by
    rcases h with h | h <;> simp [elapsedOf, pyOr, h]
  have hwf : waitFracOf t = 0 := by simp [waitFracOf, he]
  have hsa : shortAppOf t s = false := by simp [shortAppOf, he]
  have hio : ioCondOf t s = false := by
    unfold ioCondOf
    rw [he, hwf]
    norm_num
  refine ⟨hwf, hsa, hio, ?_, ?_⟩ <;>
    · show primaryOf t c ca m s ≠ _
      unfold primaryOf
      rw [hsa, hio]
      cases hm : memCondOf c ca m <;> simp

/-- C10, witness: the all-unknown document. -/
theorem C10_zero_elapsed_no_io_verdict_witness :
    waitFracOf ⟨none, none, none⟩ = 0 ∧
    shortAppOf ⟨none, none, none⟩ ⟨none, none⟩ = false ∧
    ioCondOf ⟨none, none, none⟩ ⟨none, none⟩ = false ∧
    (classify_performance ⟨none, none, none⟩ ⟨none, none, none, none⟩
      ⟨none, none⟩ ⟨none, none⟩ ⟨none, none⟩
      ⟨none, none⟩).primary_bottleneck ≠ "I/O/Wait" ∧
    (classify_performance ⟨none, none, none⟩ ⟨none, none, none, none⟩
      ⟨none, none⟩ ⟨none, none⟩ ⟨none, none⟩
      ⟨none, none⟩).primary_bottleneck ≠ "No bottleneck" :=
  C10_zero_elapsed_no_io_verdict ⟨none, none, none⟩ ⟨none, none, none, none⟩
    ⟨none, none⟩ ⟨none, none⟩ ⟨none, none⟩ ⟨none, none⟩ (Or.inl rfl)

/-- C8.  Scenario C: a document with `backend_stall_pct = 25`,
`llc_miss_rate_pct = 8` and every other signal unknown is classified
Memory with confidence exactly 0.61 (base 0.35 plus 0.13 for each of the
two corroborating signals: llc ≥ 5, backend ≥ 20). -/
theorem C8_scenario_c_memory_confidence :
    (classify_performance ⟨none, none, none⟩ ⟨none, none, none, some 25⟩
      ⟨none, some 8⟩ ⟨none, none⟩ ⟨none, none⟩
      ⟨none, none⟩).primary_bottleneck = "Memory" ∧
    (classify_performance ⟨none, none, none⟩ ⟨none, none, none, some 25⟩
      ⟨none, some 8⟩ ⟨none, none⟩ ⟨none, none⟩
      ⟨none, none⟩).confidence = 61/100 ∧
    memConfScoreOf ⟨none, none, none, some 25⟩ ⟨none, some 8⟩ ⟨none, none⟩
      = 2 := by
  refine ⟨by with_unfolding_all rfl, by with_unfolding_all rfl,
    by with_unfolding_all rfl⟩

/-- C3, code-bug evidence.  A counter-summary line for a pipeline
stall-cycle counter is recorded under the `cycles` key: the line contains
the substring "cycles" without "ref-cycles", so the
`elif "cycles" in line_lower and "ref-cycles" not in line_lower` branch
(src/profiler.py line 91) fires before the stalled-cycles branches of lines
135 to 138 are ever reached — those branches are unreachable for perf
output, and the stall value overwrites the true cycle count.  The
ref-cycles ordering the spec cites does work (third conjunct), which shows
the misclassification is specific to the stalled-cycles labels. -/
theorem C3_stalled_cycles_recorded_as_cycles :
    run_perf_stat_parse "12,345 stalled-cycles-frontend # 5.00% frontend cycles idle"
      = [("cycles", 12345)] ∧
    run_perf_stat_parse "777 stalled-cycles-backend" = [("cycles", 777)] ∧
    perfLineField "500 ref-cycles".data = some ("ref_cycles", 500) ∧
    perfLineField "42 cycles".data = some ("cycles", 42) := by
  refine ⟨by with_unfolding_all rfl, by with_unfolding_all rfl,
    by with_unfolding_all rfl, by with_unfolding_all rfl⟩

/-- C5, code-bug evidence.  On the real `/usr/bin/time -v` elapsed line the
value is `M:SS.ss`; `ls.rsplit(":", 1)[1]` (src/profiler.py line 202) splits
at the LAST colon, which lies inside the time value, so the parser records
only the seconds part: `1:02.50` (62.5 seconds) is recorded as
`elapsed_s = 2.5`.  The helper `parse_elapsed_to_seconds` applied to the
full value would return 62.5 (second conjunct) — its multi-part colon logic
is dead code from this call site, since the text after the last colon never
contains a colon. -/
theorem C5_elapsed_rsplit_drops_minutes :
    run_time_v_timing_parse
      ["Elapsed (wall clock) time (h:mm:ss or m:ss): 1:02.50"]
      = [("elapsed_s", 5/2)] ∧
    parse_elapsed_to_seconds "1:02.50".data = some (125/2) := by
  refine ⟨by with_unfolding_all rfl, by with_unfolding_all rfl⟩

/-- C6, counterexample.  A known miss count of zero with a nonzero load
count yields an unknown rate, not the 0 percent the claim states: Python
`perf_data.get(...)` returns `0`, which is falsy, so the
`if loads and misses:` guard fails and the rate is set to `None`. -/
theorem C6_miss_rate_zero_misses_counterexample :
    derive_miss_rate_pct (some 1000) (some 0) = none := by
  with_unfolding_all rfl

/-- C6, amended.  A miss-rate percentage is derived exactly when both
counters are known and truthy (nonzero) — a known miss count of zero yields
unknown, like a missing counter — and every derived rate is at most 100;
the unknown case is a value, never an exception or infinity. -/
theorem C6_miss_rate_derivation_amended (loads misses : Option ℚ) :
    ((derive_miss_rate_pct loads misses).isSome
      = (pyTruthy loads && pyTruthy misses)) ∧
    (∀ r, derive_miss_rate_pct loads misses = some r → r ≤ 100) := by
  constructor
  · cases loads with
    | none => simp [derive_miss_rate_pct, pyTruthy]
    | some a =>
      cases misses with
      | none => simp [derive_miss_rate_pct, pyTruthy]
      | some b =>
        by_cases ha : a = 0 <;> by_cases hb : b = 0 <;>
          simp [derive_miss_rate_pct, pyTruthy, ha, hb]
  · intro r hr
    cases loads with
    | none => simp [derive_miss_rate_pct] at hr
    | some a =>
      cases misses with
      | none => simp [derive_miss_rate_pct] at hr
      | some b =>
        by_cases hc : a ≠ 0 ∧ b ≠ 0
        · simp only [derive_miss_rate_pct, if_pos hc, Option.some.injEq] at hr
          have hb : min (100 * b / max 1 a) 100 ≤ ((100 : ℤ) : ℚ) := by
            push_cast
            exact min_le_right _ _
          have := pyRound_le hb 6
          rw [hr] at this
          exact_mod_cast this
        · simp [derive_miss_rate_pct, if_neg hc] at hr

/-- C6, witness: loads 1000 and misses 80 derive the rate 8, which is at
most 100. -/
theorem C6_miss_rate_derivation_witness :
    derive_miss_rate_pct (some 1000) (some 80) = some 8 ∧ (8 : ℚ) ≤ 100 :=
  ⟨by with_unfolding_all rfl,
   (C6_miss_rate_derivation_amended (some 1000) (some 80)).2 8
     (by with_unfolding_all rfl)⟩

/-- C4, counterexample.  The claim quantifies over every document; on a
document that already contains the `performance_classification` key, the
dict assignment overwrites the existing value in place — the original field
is changed and no new key is added — so the claim as stated is false. -/
theorem C4_augment_existing_key_counterexample :
    alookup [("performance_classification", PyVal.null)]
      "performance_classification" = some PyVal.null ∧
    (augment [("performance_classification", PyVal.null)]).map Prod.fst
      = ["performance_classification"] ∧
    (alookup (augment [("performance_classification", PyVal.null)])
      "performance_classification").map PyVal.isNull = some false :=
  ⟨rfl, rfl, rfl⟩

/-- C4, amended.  For every document D that does not already contain the
`performance_classification` key, augmented mode outputs D with every one
of its original fields and values unchanged and with exactly one new key,
`performance_classification`, appended, holding `classify_result D`. -/
theorem C4_augment_roundtrip_amended (data : List (String × PyVal))
    (h : alookup data "performance_classification" = none) :
    (∀ k, k ≠ "performance_classification" →
      alookup (augment data) k = alookup data k) ∧
    alookup (augment data) "performance_classification"
      = some (.cls (classify_result data)) ∧
    (augment data).map Prod.fst
      = data.map Prod.fst ++ ["performance_classification"] :=
  ⟨fun _ hk => alookup_dictSet_other _ _ _ _ hk,
   alookup_dictSet_self _ _ _,
   keys_dictSet_of_none _ _ _ h⟩

/-- C4, witness: a one-section document gains exactly the classification
key, and its `timing` field reads back unchanged. -/
theorem C4_augment_roundtrip_witness :
    alookup (augment [("timing", PyVal.obj [("elapsed_s", PyVal.num 10)])])
        "timing"
      = alookup [("timing", PyVal.obj [("elapsed_s", PyVal.num 10)])]
          "timing" ∧
    (augment [("timing", PyVal.obj [("elapsed_s", PyVal.num 10)])]).map
        Prod.fst
      = ["timing", "performance_classification"] :=
  ⟨(C4_augment_roundtrip_amended _ (by with_unfolding_all rfl)).1 "timing"
     (by simp),
   (C4_augment_roundtrip_amended _ (by with_unfolding_all rfl)).2.2⟩

/-- C7.  Schema completeness.  For arbitrary partially-filled sections, the
`ensure_keys` pass of `main` leaves every schema key present (first five
conjuncts), a field no parser produced gets its declared default — the
explicit null of the default dictionaries (next five conjuncts), and the
normalized syscalls section of a run holds either parsed rows with a total
or the raw-text fallback (last conjunct). -/
theorem C7_schema_completeness
    (timing cpu cache concurrency memory : List (String × PyVal))
    (numThreads : PyVal) (rows : List PyVal) (total : PyVal)
    (rawText : String) :
    (∀ k, (alookup default_timing k).isSome →
      (alookup (ensure_keys timing default_timing) k).isSome) ∧
    (∀ k, (alookup default_cpu k).isSome →
      (alookup (ensure_keys cpu default_cpu) k).isSome) ∧
    (∀ k, (alookup default_cache k).isSome →
      (alookup (ensure_keys cache default_cache) k).isSome) ∧
    (∀ k, (alookup (default_concurrency numThreads) k).isSome →
      (alookup (ensure_keys concurrency (default_concurrency numThreads))
        k).isSome) ∧
    (∀ k, (alookup default_memory k).isSome →
      (alookup (ensure_keys memory default_memory) k).isSome) ∧
    (∀ k v, alookup timing k = none → alookup default_timing k = some v →
      alookup (ensure_keys timing default_timing) k = some v) ∧
    (∀ k v, alookup cpu k = none → alookup default_cpu k = some v →
      alookup (ensure_keys cpu default_cpu) k = some v) ∧
    (∀ k v, alookup cache k = none → alookup default_cache k = some v →
      alookup (ensure_keys cache default_cache) k = some v) ∧
    (∀ k v, alookup concurrency k = none →
      alookup (default_concurrency numThreads) k = some v →
      alookup (ensure_keys concurrency (default_concurrency numThreads)) k
        = some v) ∧
    (∀ k v, alookup memory k = none → alookup default_memory k = some v →
      alookup (ensure_keys memory default_memory) k = some v) ∧
    (((alookup (normalize_syscalls (strace_result rows total rawText))
        "syscalls").isSome ∧
      (alookup (normalize_syscalls (strace_result rows total rawText))
        "total").isSome) ∨
     (alookup (normalize_syscalls (strace_result rows total rawText))
       "raw").isSome) := by
  refine ⟨fun k => ensure_keys_complete _ _ k,
    fun k => ensure_keys_complete _ _ k,
    fun k => ensure_keys_complete _ _ k,
    fun k => ensure_keys_complete _ _ k,
    fun k => ensure_keys_complete _ _ k,
    fun k v h1 h2 => ensure_keys_fills _ _ k v h1 h2,
    fun k v h1 h2 => ensure_keys_fills _ _ k v h1 h2,
    fun k v h1 h2 => ensure_keys_fills _ _ k v h1 h2,
    fun k v h1 h2 => ensure_keys_fills _ _ k v h1 h2,
    fun k v h1 h2 => ensure_keys_fills _ _ k v h1 h2, ?_⟩
  by_cases hr : rows.isEmpty
  · right
    simp [strace_result, normalize_syscalls, hr, alookup]
  · left
    simp [strace_result, normalize_syscalls, hr, alookup]

/-- C7, witness: on empty parser outputs, `elapsed_s` is present in the
normalized timing section, `memcheck` is filled with the explicit null, and
the empty strace run degrades to a raw-text syscalls section. -/
theorem C7_schema_completeness_witness :
    (alookup (ensure_keys [] default_timing) "elapsed_s").isSome ∧
    alookup (ensure_keys [] default_memory) "memcheck" = some PyVal.null ∧
    (alookup (normalize_syscalls (strace_result [] (.obj []) "unparsed"))
      "raw").isSome := by
  refine ⟨?_, ?_, ?_⟩
  · exact (C7_schema_completeness [] [] [] [] [] (.num 1) [] (.obj [])
      "unparsed").1 "elapsed_s" (by with_unfolding_all rfl)
  · exact (C7_schema_completeness [] [] [] [] [] (.num 1) [] (.obj [])
      "unparsed").2.2.2.2.2.2.2.2.2.1 "memcheck" PyVal.null rfl
      (by with_unfolding_all rfl)
  · rcases (C7_schema_completeness [] [] [] [] [] (.num 1) [] (.obj [])
        "unparsed").2.2.2.2.2.2.2.2.2.2 with h | h
    · exact absurd h.1 (by with_unfolding_all decide)
    · exact h

/-- Seconds attributed to the rows of the syscall table whose name is
"write".  This formalizes the trigger condition of the cross-check claim
(write invocations contributing a share of elapsed time); the source never
computes it — it tests the TOTAL syscall time instead — which is what the
counterexample below exhibits. -/
def writeSecondsOf (s : Syscalls) : ℚ :=
  ((rowsOf s).filter fun r => decide (r.syscall = some "write")).foldl
    (fun a r => a + r.seconds) 0

/-- C9, counterexample.  A document classified CPU whose syscall table shows
200 write calls contributing 5 percent of elapsed time (0.5 s of 10 s) gets
NO buffering caveat, because the code gates the caveat on the TOTAL syscall
time (2 s of 10 s = 20 percent ≥ 10 percent), not on the write share the
claim states: the suggestions list is empty. -/
theorem C9_buffered_write_caveat_counterexample :
    (classify_performance ⟨some 10, none, none⟩ ⟨none, none, none, none⟩
      ⟨none, none⟩ ⟨none, none⟩ ⟨none, none⟩
      ⟨some [⟨some "write", 200, 1/2, 5⟩, ⟨some "read", 10, 3/2, 15⟩],
       some 2⟩).primary_bottleneck = "CPU" ∧
    writeCallsOf ⟨some [⟨some "write", 200, 1/2, 5⟩,
      ⟨some "read", 10, 3/2, 15⟩], some 2⟩ = 200 ∧
    writeSecondsOf ⟨some [⟨some "write", 200, 1/2, 5⟩,
        ⟨some "read", 10, 3/2, 15⟩], some 2⟩ /
      elapsedOf ⟨some 10, none, none⟩ < 1/10 ∧
    (classify_performance ⟨some 10, none, none⟩ ⟨none, none, none, none⟩
      ⟨none, none⟩ ⟨none, none⟩ ⟨none, none⟩
      ⟨some [⟨some "write", 200, 1/2, 5⟩, ⟨some "read", 10, 3/2, 15⟩],
       some 2⟩).suggestions = [] := by
  refine ⟨by with_unfolding_all rfl, by with_unfolding_all rfl, ?_,
    by with_unfolding_all rfl⟩
  have h : writeSecondsOf ⟨some [⟨some "write", 200, 1/2, 5⟩,
      ⟨some "read", 10, 3/2, 15⟩], some 2⟩ /
      elapsedOf ⟨some 10, none, none⟩ = 1/20 := by
    with_unfolding_all rfl
  rw [h]
  norm_num

/-- C9, amended.  For every document classified CPU with a positive elapsed
time, whose TOTAL syscall time is under 10 percent of elapsed and whose
syscall table shows more than 100 write invocations,
`classify_performance` appends the output-redirection/buffering caveat to
the suggestions list; and the cross-check never changes the verdict — the
primary bottleneck is exactly the cascade verdict, computed before and
independently of the suggestions. -/
theorem C9_buffered_write_caveat_amended
    (t : Timing) (c : Cpu) (ca : Cache) (m : MemorySec) (co : Concurrency)
    (s : Syscalls)
    (h : (classify_performance t c ca m co s).primary_bottleneck = "CPU")
    (hwc : writeCallsOf s > 100)
    (he : elapsedOf t > 0)
    (hr : pyOr s.total_seconds 0 / elapsedOf t < 1/10) :
    Suggestion.bufferedWritesNote (writeCallsOf s) ∈
      (classify_performance t c ca m co s).suggestions ∧
    (classify_performance t c ca m co s).primary_bottleneck
      = primaryOf t c ca m s := by
  have hp : primaryOf t c ca m s = "CPU" := h
  constructor
  · show Suggestion.bufferedWritesNote (writeCallsOf s) ∈
      suggestionsOf t c ca m co s
    have hwc0 : writeCallsOf s > 0 := lt_trans (by norm_num) hwc
    simp [suggestionsOf, bufferedWriteSuggestionsOf, hp, hwc0, he, hr, hwc]
    exact Or.inl (by simpa using hr)
  · rfl

/-- C9, witness: elapsed 10 s, one write row with 200 calls, total syscall
time 0.5 s (5 percent of elapsed): the caveat is appended. -/
theorem C9_buffered_write_caveat_witness :
    Suggestion.bufferedWritesNote
        (writeCallsOf ⟨some [⟨some "write", 200, 1/10, 5⟩], some (1/2)⟩) ∈
      (classify_performance ⟨some 10, none, none⟩ ⟨none, none, none, none⟩
        ⟨none, none⟩ ⟨none, none⟩ ⟨none, none⟩
        ⟨some [⟨some "write", 200, 1/10, 5⟩], some (1/2)⟩).suggestions := by
  apply (C9_buffered_write_caveat_amended ⟨some 10, none, none⟩
    ⟨none, none, none, none⟩ ⟨none, none⟩ ⟨none, none⟩ ⟨none, none⟩
    ⟨some [⟨some "write", 200, 1/10, 5⟩], some (1/2)⟩
    (by with_unfolding_all rfl) ?_ ?_ ?_).1
  · have h : writeCallsOf ⟨some [⟨some "write", 200, 1/10, 5⟩], some (1/2)⟩
        = 200 := by with_unfolding_all rfl
    rw [h]
    norm_num
  · have h : elapsedOf ⟨some 10, none, none⟩ = 10 := by with_unfolding_all rfl
    rw [h]
    norm_num
  · have h : pyOr (Syscalls.total_seconds
        ⟨some [⟨some "write", 200, 1/10, 5⟩], some (1/2)⟩) 0 /
        elapsedOf ⟨some 10, none, none⟩ = 1/20 := by with_unfolding_all rfl
    rw [h]
    norm_num

end Profiler

